import Mathlib

/-!
Verification of the natural-language specification of the idaes-pse
repository fragment against a shallow embedding of its code.

The development covers three independent pieces of the repository:

* the DAE variable/constraint categorization utility of the caprese
  toolkit (`categorize_dae_variables_and_constraints`) — the function
  itself is not among the provided source files (only its unit tests
  are), so it is modelled from the specification, constrained by the
  behaviour the tests in
  `src/idaes/apps/caprese/tests/test_categorize.py` pin down;
* the ideal equation-of-state method library
  (`src/idaes/generic_models/properties/core/eos/ideal.py`);
* the examples CLI (`src/idaes/commands/examples.py`).
-/

namespace IdaesSpec

/-! ## DAE categorization (caprese)

Modelled from the spec: the implementation module
`idaes/apps/caprese/categorize.py` is not among the source files, only
its tests.  The embedding below follows the specification text:
variables are partitioned into categories
{DIFFERENTIAL, DERIVATIVE, ALGEBRAIC, INPUT, DISTURBANCE, FIXED,
UNUSED} and constraints into {DIFFERENTIAL, DISCRETIZATION, ALGEBRAIC,
UNUSED}; a derivative variable is categorized DERIVATIVE only if its
associated differential variable is not fixed (and not designated an
input) and its discretization equation is discoverable among the
supplied constraints; a differential variable whose derivative is
fixed is reclassified ALGEBRAIC, and vice versa; categorization
depends on the runtime fixed/free state of the model.  Consistent with
the repository tests, a supplied variable that is itself fixed is
categorized UNUSED, and an inactive constraint is categorized UNUSED. -/

/-- Variable categories of `idaes.apps.caprese.common.config.VariableCategory`. -/
inductive VariableCategory where
  | DIFFERENTIAL
  | DERIVATIVE
  | ALGEBRAIC
  | INPUT
  | DISTURBANCE
  | FIXED
  | UNUSED
deriving DecidableEq, Repr

/-- Constraint categories of `idaes.apps.caprese.common.config.ConstraintCategory`. -/
inductive ConstraintCategory where
  | DIFFERENTIAL
  | DISCRETIZATION
  | ALGEBRAIC
  | UNUSED
deriving DecidableEq, Repr

/-- A time-indexed variable of the flattened DAE model, seen at the
representative time point.  `derivOf = some d` marks a derivative
variable whose associated differential variable has id `d`. -/
structure DaeVar where
  id : Nat
  derivOf : Option Nat
deriving DecidableEq, Repr

/-- A time-indexed constraint of the flattened DAE model, seen at the
representative time point.  `varIds` are the ids of the variables
appearing in its expression; `discOf = some w` marks the
discretization equation of the derivative variable with id `w`. -/
structure DaeCon where
  id : Nat
  active : Bool
  varIds : List Nat
  discOf : Option Nat
deriving DecidableEq, Repr

/-- The structural part of the model handed to the categorizer: the
supplied time-indexed variables and constraints, together with the
user-designated input and disturbance variables. -/
structure DaeStructure where
  vars : List DaeVar
  cons : List DaeCon
  inputIds : List Nat
  disturbanceIds : List Nat
deriving DecidableEq, Repr

/-- Look a variable up by id among the supplied variables. -/
def findVar (vars : List DaeVar) (i : Nat) : Option DaeVar :=
  vars.find? (fun w => w.id == i)

/-- Look up the derivative variable (if any) of the differential
variable with id `i` among the supplied variables. -/
def findDerivative (vars : List DaeVar) (i : Nat) : Option DaeVar :=
  vars.find? (fun w => w.derivOf == some i)

/-- Whether the discretization equation of the derivative variable
with id `w` is discoverable among the supplied constraints. -/
def discFound (cons : List DaeCon) (w : Nat) : Bool :=
  cons.any (fun c => c.discOf == some w)

/-- Whether the variable with id `i` is free for dynamic purposes:
neither fixed nor designated an input or a disturbance. -/
def freeId (s : DaeStructure) (fixedIds : List Nat) (i : Nat) : Bool :=
  !(fixedIds.contains i) && !(s.inputIds.contains i) && !(s.disturbanceIds.contains i)

/-- Whether the derivative variable `w` (whose differential variable
has id `d`) together with that differential variable forms a live
differential/derivative pair: both are free and the discretization
equation of `w` is discoverable among the supplied constraints. -/
def derivPairActive (s : DaeStructure) (fixedIds : List Nat) (w : DaeVar) (d : Nat) : Bool :=
  freeId s fixedIds w.id &&
    (match findVar s.vars d with
     | some _ => freeId s fixedIds d
     | none => false) &&
    discFound s.cons w.id

/-- Modelled from the spec: category assigned to one supplied variable
by `categorize_dae_variables_and_constraints`.  Designated inputs and
disturbances come first; a fixed variable is UNUSED (per the
repository tests); a derivative variable is DERIVATIVE exactly when
its differential/derivative pair is live, and a differential variable
is DIFFERENTIAL exactly when its pair is live; everything else is
ALGEBRAIC. -/
def classifyVar (s : DaeStructure) (fixedIds : List Nat) (v : DaeVar) : VariableCategory :=
  if s.inputIds.contains v.id then VariableCategory.INPUT
  else if s.disturbanceIds.contains v.id then VariableCategory.DISTURBANCE
  else if fixedIds.contains v.id then VariableCategory.UNUSED
  else
    match v.derivOf with
    | some d =>
        if derivPairActive s fixedIds v d then VariableCategory.DERIVATIVE
        else VariableCategory.ALGEBRAIC
    | none =>
        match findDerivative s.vars v.id with
        | some w =>
            if derivPairActive s fixedIds w v.id then VariableCategory.DIFFERENTIAL
            else VariableCategory.ALGEBRAIC
        | none => VariableCategory.ALGEBRAIC

/-- Whether a constraint mentions a variable categorized DERIVATIVE. -/
def conHasDerivative (s : DaeStructure) (fixedIds : List Nat) (c : DaeCon) : Bool :=
  c.varIds.any (fun i =>
    match findVar s.vars i with
    | some w => classifyVar s fixedIds w == VariableCategory.DERIVATIVE
    | none => false)

/-- Modelled from the spec: category assigned to one supplied
constraint.  An inactive constraint is UNUSED; the discretization
equation of a variable categorized DERIVATIVE is DISCRETIZATION; any
other active constraint mentioning a DERIVATIVE variable is
DIFFERENTIAL; the rest are ALGEBRAIC. -/
def classifyCon (s : DaeStructure) (fixedIds : List Nat) (c : DaeCon) : ConstraintCategory :=
  if !c.active then ConstraintCategory.UNUSED
  else if (match c.discOf with
           | some w =>
               (match findVar s.vars w with
                | some v => classifyVar s fixedIds v == VariableCategory.DERIVATIVE
                | none => false)
           | none => false) then ConstraintCategory.DISCRETIZATION
  else if conHasDerivative s fixedIds c then ConstraintCategory.DIFFERENTIAL
  else ConstraintCategory.ALGEBRAIC

/-- The fixed order of the variable category labels. -/
def variableCategories : List VariableCategory :=
  [VariableCategory.DIFFERENTIAL, VariableCategory.DERIVATIVE,
   VariableCategory.ALGEBRAIC, VariableCategory.INPUT,
   VariableCategory.DISTURBANCE, VariableCategory.FIXED,
   VariableCategory.UNUSED]

/-- The fixed order of the constraint category labels. -/
def constraintCategories : List ConstraintCategory :=
  [ConstraintCategory.DIFFERENTIAL, ConstraintCategory.DISCRETIZATION,
   ConstraintCategory.ALGEBRAIC, ConstraintCategory.UNUSED]

/-- Modelled from the spec: `categorize_dae_variables_and_constraints`
returns a pair of partitions, the first mapping each variable category
label to the supplied variables assigned to it, the second mapping
each constraint category label to the supplied constraints assigned to
it.  The fixed/free state of the model is the separate argument
`fixedIds`. -/
def categorize_dae_variables_and_constraints (s : DaeStructure) (fixedIds : List Nat) :
    List (VariableCategory × List DaeVar) × List (ConstraintCategory × List DaeCon) :=
  (variableCategories.map
     (fun cat => (cat, s.vars.filter (fun v => classifyVar s fixedIds v == cat))),
   constraintCategories.map
     (fun cat => (cat, s.cons.filter (fun c => classifyCon s fixedIds c == cat))))

/-- The two-variable model of the repository test
`test_categorize_deriv`: a differential variable `v` (id 0), its
derivative `dv` (id 1), the differential equation (id 0) and the
discretization equation of `dv` (id 1). -/
def demoStructure : DaeStructure :=
  { vars := [⟨0, none⟩, ⟨1, some 0⟩],
    cons := [⟨0, true, [0, 1], none⟩, ⟨1, true, [0, 1], some 1⟩],
    inputIds := [],
    disturbanceIds := [] }

/-! ## Ideal equation of state
(`src/idaes/generic_models/properties/core/eos/ideal.py`)

The EoS methods read the property block `b` (state variables,
per-component correlation methods obtained through `get_method`, and
the block-level property expressions they combine) and dispatch on the
phase object returned by `b.params.get_phase(p)`.  Numeric expressions
are embedded as rational values; a raised
`PropertyNotSupportedError` is an `Except.error`. -/

/-- Exception raised by the EoS methods on unsupported phases. -/
inductive PropError where
  | PropertyNotSupportedError (msg : String)
deriving DecidableEq, Repr

/-- A phase object, as queried by the EoS methods. -/
structure PhaseObj where
  is_vapor_phase : Bool
  is_liquid_phase : Bool

/-- The property block read by the ideal EoS methods:
`get_phase` is `b.params.get_phase`, the `*_comp` function fields are
the per-component correlation methods fetched with `get_method`
(applied to the component and the block temperature), and
`dens_mol_phase`, `enth_mol_phase_comp`, `entr_mol_phase_comp`,
`gibbs_mol_phase_comp` and `mw_phase` are the block-level quantities
the mixture methods reference. -/
structure EosBlock where
  name : String
  get_phase : String → PhaseObj
  components_in_phase : String → List String
  pressure : ℚ
  temperature : ℚ
  mole_frac_phase_comp : String → String → ℚ
  dens_mol_liq_comp : String → ℚ → ℚ
  enth_mol_ig_comp : String → ℚ → ℚ
  enth_mol_liq_comp : String → ℚ → ℚ
  entr_mol_ig_comp : String → ℚ → ℚ
  entr_mol_liq_comp : String → ℚ → ℚ
  pressure_sat_comp : String → ℚ → ℚ
  mw_phase : String → ℚ
  dens_mol_phase : String → ℚ
  enth_mol_phase_comp : String → String → ℚ
  entr_mol_phase_comp : String → String → ℚ
  gibbs_mol_phase_comp : String → String → ℚ

/-- The ideal gas constant of `idaes.core.util.constants`. -/
def gas_constant : ℚ := 8314462618 / 1000000000

/-- Message built by `_invalid_phase_msg` (the source misspells
"library"). -/
def invalid_phase_msg (name phase : String) : String :=
  name ++ " received unrecognised phase name " ++ phase ++
    ". Ideal property libray only supports Vap and Liq phases."

/-- Common body of the six fugacity methods (`_fug_phase_comp`). -/
def _fug_phase_comp (b : EosBlock) (p j : String) : Except PropError ℚ :=
  let pobj := b.get_phase p
  if pobj.is_vapor_phase then Except.ok b.pressure
  else if pobj.is_liquid_phase then
    Except.ok (b.pressure_sat_comp j b.temperature)
  else
    Except.error (PropError.PropertyNotSupportedError (invalid_phase_msg b.name p))

namespace Ideal

/-- `Ideal.compress_fact_phase`. -/
def compress_fact_phase (b : EosBlock) (p : String) : Except PropError ℚ :=
  let pobj := b.get_phase p
  if pobj.is_vapor_phase || pobj.is_liquid_phase then Except.ok 1
  else
    Except.error (PropError.PropertyNotSupportedError (invalid_phase_msg b.name p))

/-- `Ideal.dens_mass_phase`. -/
def dens_mass_phase (b : EosBlock) (p : String) : ℚ :=
  b.dens_mol_phase p * b.mw_phase p

/-- `Ideal.dens_mol_phase`. -/
def dens_mol_phase (b : EosBlock) (p : String) : Except PropError ℚ :=
  let pobj := b.get_phase p
  if pobj.is_vapor_phase then
    Except.ok (b.pressure / (gas_constant * b.temperature))
  else if pobj.is_liquid_phase then
    Except.ok
      (((b.components_in_phase p).map
        (fun j => b.mole_frac_phase_comp p j * b.dens_mol_liq_comp j b.temperature)).sum)
  else
    Except.error (PropError.PropertyNotSupportedError (invalid_phase_msg b.name p))

/-- `Ideal.enth_mol_phase`. -/
def enth_mol_phase (b : EosBlock) (p : String) : ℚ :=
  ((b.components_in_phase p).map
    (fun j => b.mole_frac_phase_comp p j * b.enth_mol_phase_comp p j)).sum

/-- `Ideal.enth_mol_phase_comp`. -/
def enth_mol_phase_comp (b : EosBlock) (p j : String) : Except PropError ℚ :=
  let pobj := b.get_phase p
  if pobj.is_vapor_phase then Except.ok (b.enth_mol_ig_comp j b.temperature)
  else if pobj.is_liquid_phase then Except.ok (b.enth_mol_liq_comp j b.temperature)
  else
    Except.error (PropError.PropertyNotSupportedError (invalid_phase_msg b.name p))

/-- `Ideal.entr_mol_phase`. -/
def entr_mol_phase (b : EosBlock) (p : String) : ℚ :=
  ((b.components_in_phase p).map
    (fun j => b.mole_frac_phase_comp p j * b.entr_mol_phase_comp p j)).sum

/-- `Ideal.entr_mol_phase_comp`. -/
def entr_mol_phase_comp (b : EosBlock) (p j : String) : Except PropError ℚ :=
  let pobj := b.get_phase p
  if pobj.is_vapor_phase then Except.ok (b.entr_mol_ig_comp j b.temperature)
  else if pobj.is_liquid_phase then Except.ok (b.entr_mol_liq_comp j b.temperature)
  else
    Except.error (PropError.PropertyNotSupportedError (invalid_phase_msg b.name p))

/-- `Ideal.fug_phase_comp`. -/
def fug_phase_comp (b : EosBlock) (p j : String) : Except PropError ℚ :=
  _fug_phase_comp b p j

/-- `Ideal.fug_phase_comp_eq`. -/
def fug_phase_comp_eq (b : EosBlock) (p j pp : String) : Except PropError ℚ :=
  _fug_phase_comp b p j

/-- `Ideal.fug_coeff_phase_comp`. -/
def fug_coeff_phase_comp (b : EosBlock) (p j : String) : Except PropError ℚ :=
  let pobj := b.get_phase p
  if !(pobj.is_vapor_phase || pobj.is_liquid_phase) then
    Except.error (PropError.PropertyNotSupportedError (invalid_phase_msg b.name p))
  else Except.ok 1

/-- `Ideal.fug_coeff_phase_comp_eq`. -/
def fug_coeff_phase_comp_eq (b : EosBlock) (p j pp : String) : Except PropError ℚ :=
  let pobj := b.get_phase p
  if !(pobj.is_vapor_phase || pobj.is_liquid_phase) then
    Except.error (PropError.PropertyNotSupportedError (invalid_phase_msg b.name p))
  else Except.ok 1

/-- `Ideal.fug_phase_comp_Tbub`. -/
def fug_phase_comp_Tbub (b : EosBlock) (p j pp : String) : Except PropError ℚ :=
  _fug_phase_comp b p j

/-- `Ideal.fug_phase_comp_Tdew`. -/
def fug_phase_comp_Tdew (b : EosBlock) (p j pp : String) : Except PropError ℚ :=
  _fug_phase_comp b p j

/-- `Ideal.fug_phase_comp_Pbub`. -/
def fug_phase_comp_Pbub (b : EosBlock) (p j pp : String) : Except PropError ℚ :=
  _fug_phase_comp b p j

/-- `Ideal.fug_phase_comp_Pdew`. -/
def fug_phase_comp_Pdew (b : EosBlock) (p j pp : String) : Except PropError ℚ :=
  _fug_phase_comp b p j

/-- `Ideal.gibbs_mol_phase`. -/
def gibbs_mol_phase (b : EosBlock) (p : String) : ℚ :=
  ((b.components_in_phase p).map
    (fun j => b.mole_frac_phase_comp p j * b.gibbs_mol_phase_comp p j)).sum

/-- `Ideal.gibbs_mol_phase_comp`. -/
def gibbs_mol_phase_comp (b : EosBlock) (p j : String) : ℚ :=
  b.enth_mol_phase_comp p j - b.entr_mol_phase_comp p j * b.temperature

end Ideal

/-- A concrete two-component, two-phase block used to instantiate the
EoS theorems. -/
def demoBlock : EosBlock :=
  { name := "state",
    get_phase := fun p =>
      if p == "Vap" then ⟨true, false⟩
      else if p == "Liq" then ⟨false, true⟩
      else ⟨false, false⟩,
    components_in_phase := fun _ => ["a", "b"],
    pressure := 100000,
    temperature := 300,
    mole_frac_phase_comp := fun _ j => if j == "a" then 1 / 4 else 3 / 4,
    dens_mol_liq_comp := fun _ T => 10 + T,
    enth_mol_ig_comp := fun _ T => 2 * T,
    enth_mol_liq_comp := fun _ T => T,
    entr_mol_ig_comp := fun _ T => T / 2,
    entr_mol_liq_comp := fun _ T => T / 3,
    pressure_sat_comp := fun _ T => 1000 + T,
    mw_phase := fun _ => 18 / 1000,
    dens_mol_phase := fun _ => 40000,
    enth_mol_phase_comp := fun _ _ => 5,
    entr_mol_phase_comp := fun _ _ => 7,
    gibbs_mol_phase_comp := fun _ _ => 9 }

/-! ## Examples CLI (`src/idaes/commands/examples.py`)

The command is a sequential script over an environment (the GitHub
release list, the HTTP status of the archive GET, the filesystem and
the outcome of the package install).  A run is embedded as the list of
observable events it performs, the resulting filesystem and its
control outcome (normal return, `sys.exit`, or an uncaught Python
exception). -/

def GITHUB : String := "https://github.com"

def REPO_ORG : String := "idaes"

def REPO_NAME : String := "examples-pse"

def REPO_DIR : String := "src"

def INSTALL_PKG : String := "idaes_examples"

/-- Modelled from the spec: the version string of the installed idaes
package (`idaes.ver`, not among the source files); only equality with
the requested version is observable in the messages. -/
def PKG_VERSION : String := "1.5.1"

def _skip_prereleases : Bool := false

/-- A release record of the GitHub API response read by
`get_releases`. -/
structure RawRelease where
  published_at : String
  tag_name : String
  name : String
  prerelease : Bool
deriving DecidableEq, Repr

/-- A `(published_at, tag_name, name)` tuple of `get_releases`. -/
structure Release where
  published_at : String
  tag_name : String
  name : String
deriving DecidableEq, Repr

/-- Python string comparison: lexicographic on code points. -/
def charListLe : List Char → List Char → Bool
  | [], _ => true
  | _ :: _, [] => false
  | a :: as, b :: bs =>
      if a.toNat < b.toNat then true
      else if b.toNat < a.toNat then false
      else charListLe as bs

/-- The sort key order of `get_releases`: ascending `published_at`. -/
def pubLe (a b : Release) : Prop :=
  charListLe a.published_at.data b.published_at.data = true

instance (a b : Release) : Decidable (pubLe a b) :=
  inferInstanceAs (Decidable (_ = true))

/-- One insertion step of the stable ascending sort performed by
`releases.sort(key=itemgetter(0))`. -/
def insertRelease (r : Release) : List Release → List Release
  | [] => [r]
  | x :: xs =>
      if charListLe r.published_at.data x.published_at.data then r :: x :: xs
      else x :: insertRelease r xs

/-- `list.sort` with key `published_at`: a stable ascending sort. -/
def sortReleases : List Release → List Release
  | [] => []
  | x :: xs => insertRelease x (sortReleases xs)

/-- `get_releases`: keep non-prerelease records when
`_skip_prereleases` is set, project each record to its
`(published_at, tag_name, name)` tuple and sort ascending by
publication date. -/
def get_releases (raw : List RawRelease) : List Release :=
  sortReleases
    ((raw.filter (fun r => !(_skip_prereleases && r.prerelease))).map
      (fun r => { published_at := r.published_at, tag_name := r.tag_name,
                  name := r.name }))

/-- `archive_file_url`: URL of a release zip. -/
def archive_file_url (version : String) : String :=
  GITHUB ++ "/" ++ REPO_ORG ++ "/" ++ REPO_NAME ++ "/archive/" ++ version ++ ".zip"

/-- Observable events of a run of the examples command. -/
inductive Event where
  | echoed (msg : String)
  | printedReleases
  | httpGet (url : String)
  | wroteZip
  | extracted
  | renamedToTarget
  | removedTarget
  | installedPkg
deriving DecidableEq, Repr

/-- Uncaught Python exceptions the embedding distinguishes. -/
inductive PyExn where
  | FileNotFoundError
deriving DecidableEq, Repr

/-- Control outcome of a run: normal return, `sys.exit(code)`, or an
uncaught exception. -/
inductive Flow where
  | ok
  | sysExit (code : Int)
  | uncaught (e : PyExn)
deriving DecidableEq, Repr

/-- The slice of the filesystem the command touches: the contents tag
of the target directory when that directory exists. -/
structure FS where
  target : Option String
deriving DecidableEq, Repr

/-- `shutil.rmtree` applied to the target directory: removing a
directory that does not exist raises `FileNotFoundError`. -/
def rmtree (fs : FS) : Except PyExn FS :=
  match fs.target with
  | some _ => Except.ok { target := none }
  | none => Except.error PyExn.FileNotFoundError

/-- `download_contents`: GET the release zip (HTTP status supplied by
the environment); on a non-200 status raise `DownloadError` (returned
as the third component) before anything is written; on 200 write the
zip to a temporary directory, extract it there, and rename its
`REPO_DIR` subdirectory to the target directory. -/
def download_contents (version : String) (fs : FS) (status : Nat) :
    List Event × FS × Option String :=
  let ev := [Event.httpGet (archive_file_url version)]
  if status != 200 then
    if status == 400 || status == 404 then (ev, fs, some "file not found")
    else (ev, fs, some ("status=" ++ toString status))
  else
    (ev ++ [Event.wroteZip, Event.extracted, Event.renamedToTarget],
     { target := some version }, none)

/-- The two messages echoed by `download_examples` when no release
matches the requested version. -/
def no_release_events (version : String) : List Event :=
  if version == PKG_VERSION then
    [Event.echoed ("No release found matching installed IDAES package version \x27"
       ++ version ++ "\x27."),
     Event.echoed "Use -l/--list-releases to see all and -V/--version to choose a desired version."]
  else
    [Event.echoed ("No release found matching selected IDAES package version \x27"
       ++ version ++ "\x27."),
     Event.echoed "Use -l/--list-releases to see all."]

/-- `download_examples`: find the release whose tag matches the
requested version (exit -1 if none), refuse to run when the target
directory already exists (exit -1), then call `download_contents`; on
a `DownloadError`, echo the failure and remove the target directory
with `shutil.rmtree` before exiting -1. -/
def download_examples (releases : List Release) (directory version : String)
    (fs : FS) (status : Nat) : List Event × FS × Flow :=
  match releases.find? (fun r => version == r.tag_name) with
  | none => (no_release_events version, fs, Flow.sysExit (-1))
  | some _ =>
      if fs.target.isSome then
        ([Event.echoed ("Cannot download: target directory \x27" ++ directory
            ++ "\x27 already exists.")], fs, Flow.sysExit (-1))
      else
        let res := download_contents version fs status
        match res.2.2 with
        | none => (res.1, res.2.1, Flow.ok)
        | some msg =>
            match rmtree res.2.1 with
            | Except.ok fs2 =>
                (res.1 ++ [Event.echoed ("Download failed: " ++ msg),
                   Event.removedTarget], fs2, Flow.sysExit (-1))
            | Except.error e =>
                (res.1 ++ [Event.echoed ("Download failed: " ++ msg)],
                 res.2.1, Flow.uncaught e)

/-- `get_examples`: in list-releases mode print the releases and exit
0; otherwise download (unless `no_download`), then install as the
`INSTALL_PKG` package (unless `no_install`).  `installError` is the
`InstallError` message raised by `install_src`, if any. -/
def get_examples (directory : String)
    (no_install list_releases no_download : Bool) (version : String)
    (releases : List Release) (fs : FS) (status : Nat)
    (installError : Option String) : List Event × FS × Flow :=
  if list_releases then
    ([Event.printedReleases], fs, Flow.sysExit 0)
  else
    let dl : List Event × FS × Flow :=
      if no_download then ([], fs, Flow.ok)
      else
        let r := download_examples releases directory version fs status
        (Event.echoed "Downloading..." :: r.1 ++
           (match r.2.2 with
            | Flow.ok => [Event.echoed ("Downloaded examples to directory \x27"
                ++ directory ++ "\x27")]
            | _ => []),
         r.2.1, r.2.2)
    match dl.2.2 with
    | Flow.ok =>
        if no_install then (dl.1, dl.2.1, Flow.ok)
        else
          match installError with
          | none =>
              (dl.1 ++ [Event.echoed "Installing...", Event.installedPkg,
                 Event.echoed ("Installed examples in package " ++ INSTALL_PKG)],
               dl.2.1, Flow.ok)
          | some msg =>
              (dl.1 ++ [Event.echoed "Installing...",
                 Event.echoed ("Install error: " ++ msg)],
               dl.2.1, Flow.sysExit (-1))
    | f => (dl.1, dl.2.1, f)

/-- Whether an event belongs to the download phase. -/
def isDownloadEvent : Event → Bool
  | Event.httpGet _ => true
  | Event.wroteZip => true
  | Event.extracted => true
  | Event.renamedToTarget => true
  | _ => false

/-- A one-release environment used to instantiate the CLI theorems. -/
def demoReleases : List Release :=
  [{ published_at := "2020-01-01T00:00:00Z", tag_name := "1.5.0", name := "r150" }]

-- ===== Theorems =====

theorem mem_variableCategories (c : VariableCategory) : c ∈ variableCategories := by
  cases c <;> simp [variableCategories]

theorem varPartition_mem (s : DaeStructure) (f : List Nat)
    (cat : VariableCategory) (l : List DaeVar) :
    (cat, l) ∈ (categorize_dae_variables_and_constraints s f).1 ↔
      l = s.vars.filter (fun v => classifyVar s f v == cat) := by
  constructor
  · intro h
    simp only [categorize_dae_variables_and_constraints, List.mem_map, Prod.mk.injEq] at h
    obtain ⟨a, -, h1, h2⟩ := h
    subst h1
    exact h2.symm
  · rintro rfl
    simp only [categorize_dae_variables_and_constraints, List.mem_map, Prod.mk.injEq]
    exact ⟨cat, mem_variableCategories cat, rfl, rfl⟩

/-- C1: the variable partition returned by
`categorize_dae_variables_and_constraints` is keyed by the category
labels {DIFFERENTIAL, DERIVATIVE, ALGEBRAIC, INPUT, DISTURBANCE,
FIXED, UNUSED} and the constraint partition by {DIFFERENTIAL,
DISCRETIZATION, ALGEBRAIC, UNUSED}, and every supplied variable
appears in exactly one variable category: the partition is a disjoint
cover of the supplied variables. -/
theorem categorize_partition_disjoint_cover (s : DaeStructure) (f : List Nat) :
    (categorize_dae_variables_and_constraints s f).1.map Prod.fst = variableCategories ∧
    (categorize_dae_variables_and_constraints s f).2.map Prod.fst = constraintCategories ∧
    ∀ v ∈ s.vars, ∃! cat : VariableCategory, ∃ l,
      (cat, l) ∈ (categorize_dae_variables_and_constraints s f).1 ∧ v ∈ l := by
  refine ⟨rfl, rfl, ?_⟩
  · intro v hv
    refine ⟨classifyVar s f v,
      ⟨s.vars.filter (fun w => classifyVar s f w == classifyVar s f v),
        (varPartition_mem s f _ _).mpr rfl, ?_⟩, ?_⟩
    · simp [List.mem_filter, hv]
    · rintro cat ⟨l, hl, hvl⟩
      rw [varPartition_mem] at hl
      subst hl
      have h := (List.mem_filter.mp hvl).2
      exact (beq_iff_eq.mp h).symm

/-- C1 witness: in the two-variable demo model, the differential
variable appears in exactly one category of the variable partition. -/
theorem categorize_partition_disjoint_cover_witness :
    ∃! cat : VariableCategory, ∃ l,
      (cat, l) ∈ (categorize_dae_variables_and_constraints demoStructure []).1 ∧
        (⟨0, none⟩ : DaeVar) ∈ l :=
  (categorize_partition_disjoint_cover demoStructure []).2.2 ⟨0, none⟩ (by decide)

/-- C2: a derivative variable is categorized DERIVATIVE only if its
differential variable is present and not fixed and its discretization
equation is discoverable among the supplied constraints; if the
derivative variable is fixed, its differential variable is categorized
ALGEBRAIC; and if the differential variable is fixed or designated an
input, the derivative variable is categorized ALGEBRAIC. -/
theorem derivative_categorization (s : DaeStructure) (f : List Nat)
    (v u : DaeVar) (d : Nat) :
    (v.derivOf = some d →
      classifyVar s f v = VariableCategory.DERIVATIVE →
      discFound s.cons v.id = true ∧
        ∃ w, findVar s.vars d = some w ∧ f.contains d = false) ∧
    (u.derivOf = none →
      findDerivative s.vars u.id = some v →
      f.contains v.id = true →
      s.inputIds.contains u.id = false →
      s.disturbanceIds.contains u.id = false →
      f.contains u.id = false →
      classifyVar s f u = VariableCategory.ALGEBRAIC) ∧
    (v.derivOf = some d →
      s.inputIds.contains v.id = false →
      s.disturbanceIds.contains v.id = false →
      f.contains v.id = false →
      (f.contains d = true ∨ s.inputIds.contains d = true) →
      classifyVar s f v = VariableCategory.ALGEBRAIC) := by
  refine ⟨?_, ?_, ?_⟩
  · intro hd hc
    simp only [classifyVar, hd] at hc
    split at hc
    · exact absurd hc (by decide)
    split at hc
    · exact absurd hc (by decide)
    split at hc
    · exact absurd hc (by decide)
    split at hc
    case isTrue hpa =>
      simp only [derivPairActive, Bool.and_eq_true] at hpa
      obtain ⟨⟨hfree, hmatch⟩, hdisc⟩ := hpa
      refine ⟨hdisc, ?_⟩
      cases hfv : findVar s.vars d with
      | none => rw [hfv] at hmatch; simp at hmatch
      | some w =>
          rw [hfv] at hmatch
          simp only [freeId, Bool.and_eq_true, Bool.not_eq_true'] at hmatch
          exact ⟨w, rfl, hmatch.1.1⟩
    · exact absurd hc (by decide)
  · intro h0 hfd hvfix hui hud huf
    simp only [classifyVar, h0, hfd, hui, hud, huf, derivPairActive, freeId, hvfix]
    simp
  · intro hd hui hud hvf hor
    have hpa : derivPairActive s f v d = false := by
      simp only [derivPairActive, freeId]
      cases hfv : findVar s.vars d with
      | none => simp
      | some w =>
          rcases hor with h | h <;> simp at h <;> simp [h]
    simp only [classifyVar, hd, hui, hud, hvf, hpa]
    simp

/-- C2 witness: in the two-variable demo model, (a) the derivative
variable is categorized DERIVATIVE when nothing is fixed, so its
discretization equation is discoverable and its differential variable
is free; (b) fixing the derivative makes the differential variable
ALGEBRAIC; (c) fixing the differential variable makes the derivative
ALGEBRAIC. -/
theorem derivative_categorization_witness :
    (discFound demoStructure.cons 1 = true ∧
       ∃ w, findVar demoStructure.vars 0 = some w ∧
         ([] : List Nat).contains 0 = false) ∧
    classifyVar demoStructure [1] ⟨0, none⟩ = VariableCategory.ALGEBRAIC ∧
    classifyVar demoStructure [0] ⟨1, some 0⟩ = VariableCategory.ALGEBRAIC :=
  ⟨(derivative_categorization demoStructure [] ⟨1, some 0⟩ ⟨0, none⟩ 0).1
      rfl (by decide),
   (derivative_categorization demoStructure [1] ⟨1, some 0⟩ ⟨0, none⟩ 0).2.1
      rfl (by decide) (by decide) (by decide) (by decide) (by decide),
   (derivative_categorization demoStructure [0] ⟨1, some 0⟩ ⟨0, none⟩ 0).2.2
      rfl (by decide) (by decide) (by decide) (Or.inl (by decide))⟩

/-- C3: the categorization is a deterministic function of the model
structure and the fixed-variable set — two calls on the same structure
with the same fixed set (as a set) return identical partitions — and
for some model, two calls differing only in the fixed-variable set
return different partitions. -/
theorem categorize_deterministic_and_state_sensitive :
    (∀ (s : DaeStructure) (f₁ f₂ : List Nat),
        (∀ i : Nat, f₁.contains i = f₂.contains i) →
        categorize_dae_variables_and_constraints s f₁ =
          categorize_dae_variables_and_constraints s f₂) ∧
    categorize_dae_variables_and_constraints demoStructure [] ≠
      categorize_dae_variables_and_constraints demoStructure [0] := by
  constructor
  · intro s f₁ f₂ h
    have hv : classifyVar s f₁ = classifyVar s f₂ := by
      funext v
      simp only [classifyVar, freeId, derivPairActive, h]
    have hc : classifyCon s f₁ = classifyCon s f₂ := by
      funext c
      simp only [classifyCon, conHasDerivative, hv]
    simp only [categorize_dae_variables_and_constraints, hv, hc]
  · decide

/-- C3 witness: the fixed sets `[0, 0]` and `[0]` contain the same
ids, so the two calls on the demo model return identical partitions. -/
theorem categorize_deterministic_witness :
    categorize_dae_variables_and_constraints demoStructure [0, 0] =
      categorize_dae_variables_and_constraints demoStructure [0] :=
  categorize_deterministic_and_state_sensitive.1 demoStructure [0, 0] [0]
    (fun i => by by_cases h : i = 0 <;> simp [h])

/-- C4: for every phase that is vapor or liquid, every ideal EoS
phase-property method returns a value — `compress_fact_phase`,
`fug_coeff_phase_comp` and `fug_coeff_phase_comp_eq` return 1 — and
for every phase that is neither vapor nor liquid, each dispatching
method raises exactly `PropertyNotSupportedError` with the invalid
phase message. -/
theorem ideal_phase_dispatch (b : EosBlock) (p j pp : String) :
    (((b.get_phase p).is_vapor_phase = true ∨ (b.get_phase p).is_liquid_phase = true) →
      Ideal.compress_fact_phase b p = Except.ok 1 ∧
      Ideal.fug_coeff_phase_comp b p j = Except.ok 1 ∧
      Ideal.fug_coeff_phase_comp_eq b p j pp = Except.ok 1 ∧
      (Ideal.dens_mol_phase b p).isOk = true ∧
      (Ideal.enth_mol_phase_comp b p j).isOk = true ∧
      (Ideal.entr_mol_phase_comp b p j).isOk = true ∧
      (Ideal.fug_phase_comp b p j).isOk = true ∧
      (Ideal.fug_phase_comp_eq b p j pp).isOk = true ∧
      (Ideal.fug_phase_comp_Tbub b p j pp).isOk = true ∧
      (Ideal.fug_phase_comp_Tdew b p j pp).isOk = true ∧
      (Ideal.fug_phase_comp_Pbub b p j pp).isOk = true ∧
      (Ideal.fug_phase_comp_Pdew b p j pp).isOk = true) ∧
    ((b.get_phase p).is_vapor_phase = false → (b.get_phase p).is_liquid_phase = false →
      Ideal.compress_fact_phase b p =
        Except.error (PropError.PropertyNotSupportedError (invalid_phase_msg b.name p)) ∧
      Ideal.dens_mol_phase b p =
        Except.error (PropError.PropertyNotSupportedError (invalid_phase_msg b.name p)) ∧
      Ideal.enth_mol_phase_comp b p j =
        Except.error (PropError.PropertyNotSupportedError (invalid_phase_msg b.name p)) ∧
      Ideal.entr_mol_phase_comp b p j =
        Except.error (PropError.PropertyNotSupportedError (invalid_phase_msg b.name p)) ∧
      Ideal.fug_coeff_phase_comp b p j =
        Except.error (PropError.PropertyNotSupportedError (invalid_phase_msg b.name p)) ∧
      Ideal.fug_coeff_phase_comp_eq b p j pp =
        Except.error (PropError.PropertyNotSupportedError (invalid_phase_msg b.name p)) ∧
      Ideal.fug_phase_comp b p j =
        Except.error (PropError.PropertyNotSupportedError (invalid_phase_msg b.name p)) ∧
      Ideal.fug_phase_comp_eq b p j pp =
        Except.error (PropError.PropertyNotSupportedError (invalid_phase_msg b.name p)) ∧
      Ideal.fug_phase_comp_Tbub b p j pp =
        Except.error (PropError.PropertyNotSupportedError (invalid_phase_msg b.name p)) ∧
      Ideal.fug_phase_comp_Tdew b p j pp =
        Except.error (PropError.PropertyNotSupportedError (invalid_phase_msg b.name p)) ∧
      Ideal.fug_phase_comp_Pbub b p j pp =
        Except.error (PropError.PropertyNotSupportedError (invalid_phase_msg b.name p)) ∧
      Ideal.fug_phase_comp_Pdew b p j pp =
        Except.error (PropError.PropertyNotSupportedError (invalid_phase_msg b.name p))) := by
  constructor
  · intro h
    cases hv : (b.get_phase p).is_vapor_phase with
    | true =>
        refine ⟨?_, ?_, ?_, ?_, ?_, ?_, ?_, ?_, ?_, ?_, ?_, ?_⟩ <;>
          simp [Ideal.compress_fact_phase, Ideal.fug_coeff_phase_comp,
            Ideal.fug_coeff_phase_comp_eq, Ideal.dens_mol_phase,
            Ideal.enth_mol_phase_comp, Ideal.entr_mol_phase_comp,
            Ideal.fug_phase_comp, Ideal.fug_phase_comp_eq,
            Ideal.fug_phase_comp_Tbub, Ideal.fug_phase_comp_Tdew,
            Ideal.fug_phase_comp_Pbub, Ideal.fug_phase_comp_Pdew,
            _fug_phase_comp, Except.isOk, Except.toBool, hv]
    | false =>
        have hl : (b.get_phase p).is_liquid_phase = true := by
          rcases h with h | h
          · rw [hv] at h; exact absurd h (by decide)
          · exact h
        refine ⟨?_, ?_, ?_, ?_, ?_, ?_, ?_, ?_, ?_, ?_, ?_, ?_⟩ <;>
          simp [Ideal.compress_fact_phase, Ideal.fug_coeff_phase_comp,
            Ideal.fug_coeff_phase_comp_eq, Ideal.dens_mol_phase,
            Ideal.enth_mol_phase_comp, Ideal.entr_mol_phase_comp,
            Ideal.fug_phase_comp, Ideal.fug_phase_comp_eq,
            Ideal.fug_phase_comp_Tbub, Ideal.fug_phase_comp_Tdew,
            Ideal.fug_phase_comp_Pbub, Ideal.fug_phase_comp_Pdew,
            _fug_phase_comp, Except.isOk, Except.toBool, hv, hl]
  · intro hv hl
    refine ⟨?_, ?_, ?_, ?_, ?_, ?_, ?_, ?_, ?_, ?_, ?_, ?_⟩ <;>
      simp [Ideal.compress_fact_phase, Ideal.fug_coeff_phase_comp,
        Ideal.fug_coeff_phase_comp_eq, Ideal.dens_mol_phase,
        Ideal.enth_mol_phase_comp, Ideal.entr_mol_phase_comp,
        Ideal.fug_phase_comp, Ideal.fug_phase_comp_eq,
        Ideal.fug_phase_comp_Tbub, Ideal.fug_phase_comp_Tdew,
        Ideal.fug_phase_comp_Pbub, Ideal.fug_phase_comp_Pdew,
        _fug_phase_comp, hv, hl]

/-- C4 witness: on the demo block, the Vap phase gives
`compress_fact_phase = 1` and the unsupported Sol phase raises
`PropertyNotSupportedError`. -/
theorem ideal_phase_dispatch_witness :
    Ideal.compress_fact_phase demoBlock "Vap" = Except.ok 1 ∧
    Ideal.compress_fact_phase demoBlock "Sol" =
      Except.error
        (PropError.PropertyNotSupportedError (invalid_phase_msg demoBlock.name "Sol")) :=
  ⟨((ideal_phase_dispatch demoBlock "Vap" "a" "b").1 (Or.inl (by decide))).1,
   ((ideal_phase_dispatch demoBlock "Sol" "a" "b").2 (by decide) (by decide)).1⟩

/-- C5: for a vapor phase `dens_mol_phase` is pressure over (gas
constant times temperature), for a liquid phase it is the
mole-fraction-weighted sum of the component liquid molar densities at
the block temperature, and `dens_mass_phase` is the block molar
density of the phase times the phase molecular weight. -/
theorem ideal_density_formulas (b : EosBlock) (p : String) :
    ((b.get_phase p).is_vapor_phase = true →
      Ideal.dens_mol_phase b p =
        Except.ok (b.pressure / (gas_constant * b.temperature))) ∧
    ((b.get_phase p).is_vapor_phase = false →
      (b.get_phase p).is_liquid_phase = true →
      Ideal.dens_mol_phase b p =
        Except.ok
          (((b.components_in_phase p).map
            (fun j => b.mole_frac_phase_comp p j *
              b.dens_mol_liq_comp j b.temperature)).sum)) ∧
    Ideal.dens_mass_phase b p = b.dens_mol_phase p * b.mw_phase p := by
  refine ⟨?_, ?_, rfl⟩
  · intro hv
    simp [Ideal.dens_mol_phase, hv]
  · intro hv hl
    simp [Ideal.dens_mol_phase, hv, hl]

/-- C5 witness: the vapor and liquid density formulas evaluated on the
demo block. -/
theorem ideal_density_formulas_witness :
    Ideal.dens_mol_phase demoBlock "Vap" =
      Except.ok (demoBlock.pressure / (gas_constant * demoBlock.temperature)) ∧
    Ideal.dens_mol_phase demoBlock "Liq" =
      Except.ok
        (((demoBlock.components_in_phase "Liq").map
          (fun j => demoBlock.mole_frac_phase_comp "Liq" j *
            demoBlock.dens_mol_liq_comp j demoBlock.temperature)).sum) :=
  ⟨(ideal_density_formulas demoBlock "Vap").1 (by decide),
   (ideal_density_formulas demoBlock "Liq").2.1 (by decide) (by decide)⟩

/-- C6: `gibbs_mol_phase_comp` is enthalpy minus entropy times
temperature, and the mixture properties `enth_mol_phase`,
`entr_mol_phase` and `gibbs_mol_phase` are the mole-fraction-weighted
sums of the per-component block properties over the components in the
phase. -/
theorem ideal_gibbs_and_mixture_sums (b : EosBlock) (p j : String) :
    Ideal.gibbs_mol_phase_comp b p j =
      b.enth_mol_phase_comp p j - b.entr_mol_phase_comp p j * b.temperature ∧
    Ideal.enth_mol_phase b p =
      ((b.components_in_phase p).map
        (fun k => b.mole_frac_phase_comp p k * b.enth_mol_phase_comp p k)).sum ∧
    Ideal.entr_mol_phase b p =
      ((b.components_in_phase p).map
        (fun k => b.mole_frac_phase_comp p k * b.entr_mol_phase_comp p k)).sum ∧
    Ideal.gibbs_mol_phase b p =
      ((b.components_in_phase p).map
        (fun k => b.mole_frac_phase_comp p k * b.gibbs_mol_phase_comp p k)).sum :=
  ⟨rfl, rfl, rfl, rfl⟩

theorem charListLe_total (as bs : List Char) :
    charListLe as bs = true ∨ charListLe bs as = true := by
  induction as generalizing bs with
  | nil => left; rfl
  | cons x xs ih =>
      cases bs with
      | nil => right; rfl
      | cons y ys =>
          by_cases h1 : x.toNat < y.toNat
          · left; simp [charListLe, h1]
          · by_cases h2 : y.toNat < x.toNat
            · right; simp [charListLe, h2]
            · rcases ih ys with h | h
              · left; simp [charListLe, h1, h2, h]
              · right; simp [charListLe, h1, h2, h]

theorem chain'_insertRelease (r : Release) (l : List Release)
    (h : List.Chain' pubLe l) : List.Chain' pubLe (insertRelease r l) := by
  induction l with
  | nil => simp [insertRelease]
  | cons x xs ih =>
      cases hc : charListLe r.published_at.data x.published_at.data with
      | true =>
          simp only [insertRelease, hc, if_true]
          exact List.chain'_cons.mpr ⟨hc, h⟩
      | false =>
          have hxr : pubLe x r := by
            rcases charListLe_total r.published_at.data x.published_at.data with h1 | h1
            · rw [hc] at h1; exact absurd h1 (by decide)
            · exact h1
          simp only [insertRelease, hc, Bool.false_eq_true, if_false]
          refine List.chain'_cons'.mpr ⟨?_, ih h.tail⟩
          intro y hy
          cases xs with
          | nil =>
              simp [insertRelease] at hy
              subst hy
              exact hxr
          | cons z zs =>
              simp only [insertRelease] at hy
              cases hc2 : charListLe r.published_at.data z.published_at.data with
              | true =>
                  simp [hc2] at hy
                  subst hy
                  exact hxr
              | false =>
                  simp [hc2] at hy
                  subst hy
                  exact (List.chain'_cons.mp h).1

theorem chain'_sortReleases (l : List Release) :
    List.Chain' pubLe (sortReleases l) := by
  induction l with
  | nil => simp [sortReleases]
  | cons x xs ih => exact chain'_insertRelease x _ ih

/-- C9: `get_releases` returns the release tuples sorted in ascending
order by `published_at`: each adjacent pair of entries has the date of
the earlier entry less than or equal to the date of the later one. -/
theorem get_releases_sorted (raw : List RawRelease) :
    List.Chain' pubLe (get_releases raw) :=
  chain'_sortReleases _

theorem installedPkg_not_in_download (releases : List Release)
    (directory version : String) (fs : FS) (status : Nat) :
    Event.installedPkg ∉ (download_examples releases directory version fs status).1 := by
  cases hfind : releases.find? (fun r => version == r.tag_name) with
  | none =>
      simp only [download_examples, hfind, no_release_events]
      split <;> simp
  | some r =>
      cases hfs : fs.target with
      | some t => simp [download_examples, hfind, hfs]
      | none =>
          by_cases h2 : (status != 200) = true
          · by_cases h3 : (status == 400 || status == 404) = true <;>
              simp [download_examples, download_contents, rmtree, hfind, hfs, h2, h3]
          · simp [download_examples, download_contents, rmtree, hfind, hfs, h2]

/-- C7: `get_examples` performs its steps in order: in list-releases
mode it prints the releases and exits 0 with no download or install;
in the fully enabled successful run the trace is exactly download
(GET, write zip, extract, relocate) followed by install; and in every
non-list run the trace splits into a prefix with no install event
followed by a suffix with no download event — the download completes
before the install begins. -/
theorem get_examples_step_order (directory : String)
    (no_install list_releases no_download : Bool) (version : String)
    (releases : List Release) (fs : FS) (status : Nat)
    (installError : Option String) :
    (list_releases = true →
      get_examples directory no_install list_releases no_download version
          releases fs status installError =
        ([Event.printedReleases], fs, Flow.sysExit 0)) ∧
    (list_releases = false → no_download = false → no_install = false →
      fs.target = none → status = 200 → installError = none →
      (∃ r, releases.find? (fun x => version == x.tag_name) = some r) →
      get_examples directory no_install list_releases no_download version
          releases fs status installError =
        ([Event.echoed "Downloading...",
          Event.httpGet (archive_file_url version), Event.wroteZip,
          Event.extracted, Event.renamedToTarget,
          Event.echoed ("Downloaded examples to directory \x27" ++ directory ++ "\x27"),
          Event.echoed "Installing...", Event.installedPkg,
          Event.echoed ("Installed examples in package " ++ INSTALL_PKG)],
         { target := some version }, Flow.ok)) ∧
    (list_releases = false →
      ∃ tr₁ tr₂,
        (get_examples directory no_install list_releases no_download version
            releases fs status installError).1 = tr₁ ++ tr₂ ∧
        Event.installedPkg ∉ tr₁ ∧
        ∀ e ∈ tr₂, isDownloadEvent e = false) := by
  refine ⟨?_, ?_, ?_⟩
  · intro h
    simp [get_examples, h]
  · rintro h1 h2 h3 hfs hst hie ⟨r, hr⟩
    simp [get_examples, download_examples, download_contents, h1, h2, h3,
      hfs, hst, hie, hr]
  · intro h1
    cases hnd : no_download with
    | true =>
        refine ⟨[], (get_examples directory no_install list_releases true
          version releases fs status installError).1, by simp, by simp, ?_⟩
        cases hni : no_install <;> cases hie : installError <;>
          simp [get_examples, h1, hnd, hni, hie, isDownloadEvent]
    | false =>
        have hnotin := installedPkg_not_in_download releases directory version fs status
        cases hf : (download_examples releases directory version fs status).2.2 with
        | ok =>
            cases hni : no_install with
            | true =>
                refine ⟨Event.echoed "Downloading..." ::
                    (download_examples releases directory version fs status).1 ++
                    [Event.echoed ("Downloaded examples to directory \x27" ++
                      directory ++ "\x27")], [], ?_, ?_, by simp⟩
                · simp [get_examples, h1, hnd, hni, hf]
                · simp [hnotin]
            | false =>
                cases hie : installError with
                | none =>
                    refine ⟨Event.echoed "Downloading..." ::
                        (download_examples releases directory version fs status).1 ++
                        [Event.echoed ("Downloaded examples to directory \x27" ++
                          directory ++ "\x27")],
                      [Event.echoed "Installing...", Event.installedPkg,
                       Event.echoed ("Installed examples in package " ++ INSTALL_PKG)],
                      ?_, ?_, ?_⟩
                    · simp [get_examples, h1, hnd, hni, hie, hf]
                    · simp [hnotin]
                    · simp [isDownloadEvent]
                | some msg =>
                    refine ⟨Event.echoed "Downloading..." ::
                        (download_examples releases directory version fs status).1 ++
                        [Event.echoed ("Downloaded examples to directory \x27" ++
                          directory ++ "\x27")],
                      [Event.echoed "Installing...",
                       Event.echoed ("Install error: " ++ msg)],
                      ?_, ?_, ?_⟩
                    · simp [get_examples, h1, hnd, hni, hie, hf]
                    · simp [hnotin]
                    · simp [isDownloadEvent]
        | sysExit c =>
            refine ⟨Event.echoed "Downloading..." ::
                (download_examples releases directory version fs status).1,
              [], ?_, ?_, by simp⟩
            · simp [get_examples, h1, hnd, hf]
            · simp [hnotin]
        | uncaught e =>
            refine ⟨Event.echoed "Downloading..." ::
                (download_examples releases directory version fs status).1,
              [], ?_, ?_, by simp⟩
            · simp [get_examples, h1, hnd, hf]
            · simp [hnotin]

/-- C7 witness: the fully enabled successful run on the one-release
demo environment produces the download-then-install trace. -/
theorem get_examples_step_order_witness :
    get_examples "examples" false false false "1.5.0" demoReleases
        { target := none } 200 none =
      ([Event.echoed "Downloading...",
        Event.httpGet (archive_file_url "1.5.0"), Event.wroteZip,
        Event.extracted, Event.renamedToTarget,
        Event.echoed ("Downloaded examples to directory \x27" ++ "examples" ++ "\x27"),
        Event.echoed "Installing...", Event.installedPkg,
        Event.echoed ("Installed examples in package " ++ INSTALL_PKG)],
       { target := some "1.5.0" }, Flow.ok) :=
  (get_examples_step_order "examples" false false false "1.5.0" demoReleases
      { target := none } 200 none).2.1 rfl rfl rfl rfl rfl rfl
    ⟨{ published_at := "2020-01-01T00:00:00Z", tag_name := "1.5.0", name := "r150" },
     by decide⟩

/-- C8: at the failing input (a matching release, no pre-existing
target directory, HTTP status 404) `download_contents` raises
`DownloadError` before the target directory is created, so the
`shutil.rmtree` cleanup in `download_examples` is applied to a
directory that does not exist: nothing is removed and the run aborts
with an uncaught `FileNotFoundError` instead of removing the partial
download and exiting cleanly. -/
theorem download_error_no_cleanup :
    (download_contents "1.5.0" { target := none } 404).2.2 = some "file not found" ∧
    (download_contents "1.5.0" { target := none } 404).2.1.target = none ∧
    download_examples demoReleases "examples" "1.5.0" { target := none } 404 =
      ([Event.httpGet (archive_file_url "1.5.0"),
        Event.echoed "Download failed: file not found"],
       { target := none }, Flow.uncaught PyExn.FileNotFoundError) :=
  ⟨rfl, rfl, rfl⟩

/-- C10: when a release matching the requested version exists and the
target directory already exists on disk, `download_examples` echoes an
error and exits with status -1, performing no download and leaving the
filesystem unchanged. -/
theorem download_examples_existing_target (releases : List Release)
    (directory version : String) (fs : FS) (status : Nat) (r : Release)
    (hfind : releases.find? (fun x => version == x.tag_name) = some r)
    (hex : fs.target.isSome = true) :
    download_examples releases directory version fs status =
      ([Event.echoed ("Cannot download: target directory \x27" ++ directory
          ++ "\x27 already exists.")], fs, Flow.sysExit (-1)) := by
  simp [download_examples, hfind, hex]

/-- C10 witness: with the demo release list and an existing target
directory, the command refuses to download and the filesystem is
untouched. -/
theorem download_examples_existing_target_witness :
    download_examples demoReleases "examples" "1.5.0" { target := some "old" } 200 =
      ([Event.echoed ("Cannot download: target directory \x27" ++ "examples"
          ++ "\x27 already exists.")],
       { target := some "old" }, Flow.sysExit (-1)) :=
  download_examples_existing_target demoReleases "examples" "1.5.0"
    { target := some "old" } 200
    { published_at := "2020-01-01T00:00:00Z", tag_name := "1.5.0", name := "r150" }
    (by decide) rfl

end IdaesSpec
